import Mathlib

/-!
# hello-chatgpt: message intake and task serialisation (`logic/telegram.go`)

A shallow embedding of the intake handler (`handleUserMessage`), the membership
gate (`findMemberFromChat`, `shouldLimitUser`), the discard filter
(`shouldIgnoreMsg`), admission (`sendTaskToChannel`) and the worker
(`ChatTask.Finish`, `loopAndFinishChatTask`).

Effects on the process-wide state (`session`, `TaskChannel`, calls of
`bot.Send`) are written in a small command language `Prog`; a program is given
a run-to-completion semantics (`Prog.run`, one goroutine running alone) and a
one-operation-at-a-time semantics (`Prog.step`), from which the interleaving of
handler goroutines with the worker is built (`Sys.move`).

Identifiers are `Int` (the code only stores and compares them). The sender
`Message.From`, the chat `Message.Chat` and the author of a referenced message
are dereferenced by the code without a nil test; they are plain fields here.
The pointers the code does test (`update.Message`, `ReplyToMessage`,
`NewChatMembers`, `LeftChatMember`) are `Option`s.
-/

namespace Logic

/-! ## Platform data (the fields of the `tgbotapi` types that the code reads) -/

/-- A platform user: `tgbotapi.User`. -/
structure User where
  ID : Int
  IsBot : Bool
  deriving DecidableEq, Repr

/-- A conversation: `tgbotapi.Chat`. -/
structure Chat where
  ID : Int
  Type_ : String
  deriving DecidableEq, Repr

/-- The library method `Chat.IsPrivate`: the chat type is "private". -/
def Chat.IsPrivate (c : Chat) : Bool := c.Type_ == "private"

/-- The message referenced by `ReplyToMessage`; the code reads only its author. -/
structure RepliedMessage where
  From : User
  deriving DecidableEq, Repr

/-- An inbound message: `tgbotapi.Message`. -/
structure Message where
  MessageID : Int
  From : User
  Chat : Chat
  Text : String
  ReplyToMessage : Option RepliedMessage
  NewChatMembers : Option (List User)
  LeftChatMember : Option User
  deriving DecidableEq, Repr

/-- An inbound event: `tgbotapi.Update`; `Message` is nil for other kinds of update. -/
structure Update where
  UpdateID : Int
  Message : Option Message
  deriving DecidableEq, Repr

/-- The result of a membership query: `tgbotapi.ChatMember`. -/
structure ChatMember where
  Status : String
  deriving DecidableEq, Repr

/-- The request of a membership query: `tgbotapi.GetChatMemberConfig`. -/
structure GetChatMemberConfig where
  SuperGroupUsername : String
  UserID : Int
  deriving DecidableEq, Repr

/-- An outgoing text message: `tgbotapi.MessageConfig`. -/
structure MessageConfig where
  ChatID : Int
  Text : String
  ReplyToMessageID : Int
  ParseMode : String
  deriving DecidableEq, Repr

/-- An outgoing chat action: `tgbotapi.ChatActionConfig`. -/
structure ChatActionConfig where
  ChatID : Int
  Action : String
  deriving DecidableEq, Repr

/-- What can be handed to `bot.Send`: `tgbotapi.Chattable`. -/
inductive Chattable where
  | message (cfg : MessageConfig)
  | chatAction (cfg : ChatActionConfig)
  deriving DecidableEq, Repr

/-- The library constructor `tgbotapi.NewMessage`. -/
def NewMessage (chatID : Int) (text : String) : MessageConfig :=
  { ChatID := chatID, Text := text, ReplyToMessageID := 0, ParseMode := "" }

/-- The library constant `tgbotapi.ChatTyping`. -/
def ChatTyping : String := "typing"

/-- The library constructor `tgbotapi.NewChatAction`. -/
def NewChatAction (chatID : Int) (action : String) : ChatActionConfig :=
  { ChatID := chatID, Action := action }

/-! ## The program's own data -/

/-- One admitted question awaiting an answer. -/
structure ChatTask where
  Question : String
  Answer : String
  Chat : Int
  From : Int
  MessageID : Int
  deriving DecidableEq, Repr

/-- What the package variables are bound to at start-up, and the collaborators
outside the repository: the platform's membership query and send call, and the
completion service `GetChatGPTResponseWithRetry`. -/
structure Env where
  SelfID : Int
  tgChannelName : String
  tgGroupName : String
  GetChatMember : GetChatMemberConfig → Except String ChatMember
  Send : Chattable → Option String
  GetChatGPTResponseWithRetry : String → String

/-- The process-wide mutable state: the keys of the `session` map, the buffer of
`TaskChannel`, and the requests handed to `bot.Send` so far, oldest first. -/
structure World where
  session : List Int
  chan : List ChatTask
  out : List Chattable
  deriving DecidableEq, Repr

/-- Capacity of `TaskChannel`: `make(chan *ChatTask, 1)`. -/
def TaskChannelCap : Nat := 1

/-- The call `session.Store(key, ...)` on the key set. -/
def sessionStore (key : Int) (s : List Int) : List Int :=
  if s.contains key then s else key :: s

/-- The call `session.Delete(key)` on the key set. -/
def sessionDelete (key : Int) (s : List Int) : List Int :=
  s.filter (fun k => k != key)

/-! ## Commands on the shared state -/

/-- A goroutine body: a tree of operations on the shared state. `nilDeref` is
the run-time failure of dereferencing a nil pointer. -/
inductive Prog (α : Type) : Type where
  | ret (a : α)
  | nilDeref
  | load (key : Int) (k : Bool → Prog α)
  | store (key : Int) (k : Prog α)
  | delete (key : Int) (k : Prog α)
  | chanSend (t : ChatTask) (k : Prog α)
  | botSend (c : Chattable) (k : Option String → Prog α)

/-- Sequencing of goroutine bodies. -/
def Prog.bind {α β : Type} : Prog α → (α → Prog β) → Prog β
  | .ret a, f => f a
  | .nilDeref, _ => .nilDeref
  | .load key k, f => .load key (fun b => (k b).bind f)
  | .store key k, f => .store key (k.bind f)
  | .delete key k, f => .delete key (k.bind f)
  | .chanSend t k, f => .chanSend t (k.bind f)
  | .botSend c k, f => .botSend c (fun r => (k r).bind f)

instance : Monad Prog where
  pure := Prog.ret
  bind := Prog.bind

/-- The call `session.Load(key)`, keeping the found flag. -/
def sessionLoadOp (key : Int) : Prog Bool := .load key .ret

/-- The call `session.Store(key, &struct{}{})`. -/
def sessionStoreOp (key : Int) : Prog Unit := .store key (.ret ())

/-- The call `session.Delete(key)`. -/
def sessionDeleteOp (key : Int) : Prog Unit := .delete key (.ret ())

/-- The statement `TaskChannel <- t`. -/
def taskChannelSend (t : ChatTask) : Prog Unit := .chanSend t (.ret ())

/-- The call `bot.Send(c)` whose results the caller drops. -/
def botSendOp (c : Chattable) : Prog Unit := .botSend c (fun _ => .ret ())

/-- A pure fallible value inside a goroutine body. -/
def Prog.ofOption {α : Type} : Option α → Prog α
  | none => .nilDeref
  | some a => .ret a

/-- How a goroutine body running alone ends. -/
inductive Outcome (α : Type) : Type where
  | done (a : α) (w : World)
  | blocked (w : World) (t : ChatTask) (k : Prog α)
  | crashed (w : World)

/-- The shared state in which a goroutine body running alone ended or parked. -/
def Outcome.world {α : Type} : Outcome α → World
  | .done _ w => w
  | .blocked w _ _ => w
  | .crashed w => w

/-- Whether the goroutine is parked on a full `TaskChannel`. -/
def Outcome.isBlocked {α : Type} : Outcome α → Bool
  | .blocked _ _ _ => true
  | _ => false

/-- Run-to-completion semantics. A send on a full `TaskChannel` parks the
goroutine: the outcome records the state, the task and the rest of the body. -/
def Prog.run {α : Type} (e : Env) : Prog α → World → Outcome α
  | .ret a, w => .done a w
  | .nilDeref, w => .crashed w
  | .load key k, w => (k (w.session.contains key)).run e w
  | .store key k, w => k.run e { w with session := sessionStore key w.session }
  | .delete key k, w => k.run e { w with session := sessionDelete key w.session }
  | .chanSend t k, w =>
      if w.chan.length < TaskChannelCap then k.run e { w with chan := w.chan ++ [t] }
      else .blocked w t k
  | .botSend c k, w => (k (e.Send c)).run e { w with out := w.out ++ [c] }

/-- One operation of a goroutine body; `none` when the body has ended or its
next operation is a send on a full `TaskChannel`. -/
def Prog.step {α : Type} (e : Env) : Prog α → World → Option (Prog α × World)
  | .ret _, _ => none
  | .nilDeref, _ => none
  | .load key k, w => some (k (w.session.contains key), w)
  | .store key k, w => some (k, { w with session := sessionStore key w.session })
  | .delete key k, w => some (k, { w with session := sessionDelete key w.session })
  | .chanSend t k, w =>
      if w.chan.length < TaskChannelCap then some (k, { w with chan := w.chan ++ [t] })
      else none
  | .botSend c k, w => some (k (e.Send c), { w with out := w.out ++ [c] })

/-! ## `logic/telegram.go` -/

/-- The constructor `NewChatTask`. -/
def NewChatTask (question : String) (chat from_ : Int) (msgID : Int) : ChatTask :=
  { Question := question, Answer := "", Chat := chat, From := from_, MessageID := msgID }

/-- The method `SendTyping`. -/
def ChatTask.SendTyping (t : ChatTask) : Prog Unit :=
  let action := NewChatAction t.Chat ChatTyping
  botSendOp (.chatAction action)

/-- The function `sendTaskToChannel`. -/
def sendTaskToChannel (question : String) (chat from_ : Int) (msgID : Int) : Prog Unit := do
  sessionStoreOp from_
  let chatTask := NewChatTask question chat from_ msgID
  taskChannelSend chatTask
  chatTask.SendTyping

/-- The method `Send`. -/
def ChatTask.Send (t : ChatTask) : Prog Unit :=
  let msg := NewMessage t.Chat t.Question
  let msg := { msg with ParseMode := "markdown" }
  let msg := { msg with Text := t.Answer }
  let msg := { msg with ReplyToMessageID := t.MessageID }
  botSendOp (.message msg)

/-- The method `GetAnswerFromChatGPT`: the task with its answer filled in. -/
def ChatTask.GetAnswerFromChatGPT (e : Env) (t : ChatTask) : ChatTask :=
  let a := e.GetChatGPTResponseWithRetry t.Question
  { t with Answer := a }

/-- The method `Finish`; the deferred `session.Delete` runs when the body returns.
The value is the task as the method leaves it. -/
def ChatTask.Finish (e : Env) (t : ChatTask) : Prog ChatTask := do
  let t := t.GetAnswerFromChatGPT e
  t.Send
  sessionDeleteOp t.From
  return t

/-- The function `sendLimitMessage`. -/
def sendLimitMessage (e : Env) (chatID : Int) (msgID : Int) : Prog Unit :=
  let text := ("You should join channel " ++ e.tgChannelName ++ " and group " ++ e.tgGroupName ++
      ", then you can talk to me") ++
    "\n\n" ++ ("你需要加入频道 " ++ e.tgChannelName ++ " 和群组 " ++ e.tgGroupName ++
      "，然后才能和我交谈")
  let msg := NewMessage chatID text
  let msg := { msg with ReplyToMessageID := msgID }
  botSendOp (.message msg)

/-- The function `findMemberFromChat`. -/
def findMemberFromChat (e : Env) (chatName : String) (userID : Int) : Bool :=
  let findUserConfig : GetChatMemberConfig :=
    { SuperGroupUsername := chatName, UserID := userID }
  match e.GetChatMember findUserConfig with
  | .error _ => false
  | .ok member => if member.Status == "left" || member.Status == "kicked" then false else true

/-- The function `shouldLimitUser`; `none` when `update.Message` is nil. -/
def shouldLimitUser (e : Env) (update : Update) : Option Bool :=
  match update.Message with
  | none => none
  | some m =>
    let userID := m.From.ID
    let canFindInChannel := findMemberFromChat e e.tgChannelName userID
    let canFindInGroup := findMemberFromChat e e.tgGroupName userID
    some (!(canFindInChannel && canFindInGroup))

/-- The library function `strings.Trim`: the text without its leading and
trailing characters that occur in `cutset`. -/
def stringsTrim (s cutset : String) : String :=
  ⟨(((s.data.dropWhile (fun c => cutset.data.contains c)).reverse).dropWhile
      (fun c => cutset.data.contains c)).reverse⟩

/-- The function `shouldIgnoreMsg`. -/
def shouldIgnoreMsg (update : Update) : Bool :=
  match update.Message with
  | none => true
  | some m =>
    if m.NewChatMembers.isSome || m.LeftChatMember.isSome then true
    else if stringsTrim m.Text " " == "" then true
    else
      match m.ReplyToMessage with
      | none => false
      | some r => !r.From.IsBot

/-- The function `sendRateLimitMessage`. -/
def sendRateLimitMessage (chat : Int) : Prog Unit :=
  botSendOp (.message (NewMessage chat "you are chatting with me, please wait for a while."))

/-- The function `handleUserMessage`. Its first statement reads
`update.Message.From.ID`, which fails on a nil `update.Message`. -/
def handleUserMessage (e : Env) (update : Update) : Prog Unit :=
  match update.Message with
  | none => .nilDeref
  | some m => do
    let thisUserHasMessage ← sessionLoadOp m.From.ID
    let isPrivate := m.Chat.IsPrivate
    let shouldHandleMessage := isPrivate ||
      (match m.ReplyToMessage with
        | none => false
        | some r => r.From.ID == e.SelfID)
    if shouldIgnoreMsg update then
      return ()
    else if shouldHandleMessage then
      let limited ← if isPrivate then Prog.ofOption (shouldLimitUser e update) else pure false
      if limited then
        sendLimitMessage e m.Chat.ID m.MessageID
      else if !thisUserHasMessage then
        sendTaskToChannel m.Text m.Chat.ID m.From.ID m.MessageID
      else
        sendRateLimitMessage m.Chat.ID
    else
      return ()

/-! ## Goroutines: handlers and the worker, one operation at a time -/

/-- The running process: the shared state, the bodies of the handler goroutines
started so far (what is left of each), and the worker `loopAndFinishChatTask`:
`none` while it waits in its `select`, otherwise the task it received and what
is left of `task.Finish()`. -/
structure Sys where
  world : World
  handlers : List (Prog Unit)
  worker : Option (ChatTask × Prog ChatTask)

/-- The state that `init` leaves: empty `session`, empty `TaskChannel`, nothing
sent, no handler, the worker waiting. -/
def Sys.init : Sys :=
  { world := { session := [], chan := [], out := [] }, handlers := [], worker := none }

/-- A scheduling decision. `spawn` is `FetchUpdates` starting a goroutine that
reaches `handleUserMessage(update)`; `handler i` lets goroutine `i` perform its
next operation; `worker` lets the worker receive from `TaskChannel`, perform the
next operation of `Finish`, or return to its `select`. -/
inductive Move where
  | spawn (update : Update)
  | handler (i : Nat)
  | worker

/-- One scheduling decision applied to the process; `none` when the chosen
goroutine cannot move (it has ended, it is parked on a full `TaskChannel`, or
the worker finds `TaskChannel` empty). -/
def Sys.move (e : Env) (s : Sys) : Move → Option Sys
  | .spawn update => some { s with handlers := s.handlers ++ [handleUserMessage e update] }
  | .handler i =>
    match s.handlers.get? i with
    | none => none
    | some p =>
      match p.step e s.world with
      | none => none
      | some (p', w') => some { s with world := w', handlers := s.handlers.set i p' }
  | .worker =>
    match s.worker with
    | none =>
      match s.world.chan with
      | [] => none
      | task :: rest =>
        some { s with world := { s.world with chan := rest }, worker := some (task, task.Finish e) }
    | some (_, .ret _) => some { s with worker := none }
    | some (task, p) =>
      match p.step e s.world with
      | none => none
      | some (p', w') => some { s with world := w', worker := some (task, p') }

/-- A schedule applied from a state, decision by decision. -/
def Sys.exec (e : Env) : Sys → List Move → Option Sys
  | s, [] => some s
  | s, mv :: rest =>
    match s.move e mv with
    | none => none
    | some s' => Sys.exec e s' rest

/-- The tasks on `TaskChannel` followed by the task `Finish` is processing. -/
def Sys.inFlight (s : Sys) : List ChatTask :=
  s.world.chan ++ (match s.worker with
    | none => []
    | some (task, _) => [task])

/-- Up to `n` operations of a goroutine body running alone, stopping early where
`Prog.step` has no move. -/
def Prog.stepN {α : Type} (e : Env) : Nat → Prog α × World → Prog α × World
  | 0, c => c
  | n + 1, c =>
    match c.1.step e c.2 with
    | none => c
    | some c' => Prog.stepN e n c'

/-! ## Concrete inputs -/

/-- A deployment in which every membership query succeeds with status "member". -/
def exampleEnv : Env :=
  { SelfID := 1, tgChannelName := "@news", tgGroupName := "@talk",
    GetChatMember := fun _ => .ok { Status := "member" },
    Send := fun _ => none,
    GetChatGPTResponseWithRetry := fun q => "re: " ++ q }

/-- A deployment in which the sender has left the group (and is in the channel). -/
def outsiderEnv : Env :=
  { exampleEnv with
    GetChatMember := fun c =>
      if c.SuperGroupUsername == "@talk" then .ok { Status := "left" } else .ok { Status := "member" } }

/-- A plain text message of user 7 in their private chat with the bot. -/
def privateMsg (msgID : Int) (text : String) : Message :=
  { MessageID := msgID, From := { ID := 7, IsBot := false },
    Chat := { ID := 7, Type_ := "private" }, Text := text,
    ReplyToMessage := none, NewChatMembers := none, LeftChatMember := none }

/-- A message of user 7 in the group chat -100 that replies to a message of `author`. -/
def groupReply (msgID : Int) (text : String) (author : User) : Message :=
  { MessageID := msgID, From := { ID := 7, IsBot := false },
    Chat := { ID := -100, Type_ := "supergroup" }, Text := text,
    ReplyToMessage := some { From := author }, NewChatMembers := none, LeftChatMember := none }

/-- The state right after start-up. -/
def emptyWorld : World := { session := [], chan := [], out := [] }

/-- A state in which a task of user 8 occupies the only slot of `TaskChannel`. -/
def fullWorld : World :=
  { session := [8], chan := [NewChatTask "earlier" 8 8 3], out := [] }

/-- A message of user 7 in their private chat that replies to a message of `author`. -/
def privateReply (msgID : Int) (text : String) (author : User) : Message :=
  { privateMsg msgID text with ReplyToMessage := some { From := author } }

/-- Two messages of user 7 are handled by two goroutines; both perform
`session.Load` before either performs `session.Store`. The first enqueues, the
worker receives that task, the second enqueues. -/
def raceSchedule : List Move :=
  [ .spawn { UpdateID := 1, Message := some (privateMsg 11 "a") },
    .spawn { UpdateID := 2, Message := some (privateMsg 12 "b") },
    .handler 0, .handler 1,
    .handler 0, .handler 0,
    .worker,
    .handler 1, .handler 1 ]

end Logic

/-! # Invitations (`client/bot/telegram/handler/bot_telegram_cmd_handler.go`)

The repositories, the `utils` helpers and the `tip` texts are outside the
sources at hand: they are parameters here. `handleInvitation` calls each
repository method at most once, so a method is given by the result it returns
for its argument; the calls that write (`Insert`, `AddCountWhenInviteOther`) and
the messages handed to the bot are recorded in `Effects`. A Go `error` is its
message, `none` standing for nil. -/

namespace Handler

/-- A stored user, as far as the code reads it: `user.UserID`. -/
structure User where
  UserID : String
  deriving DecidableEq, Repr

/-- An invite record, given by the two arguments of `persist.NewUserInviteRecord`:
the inviter (`record.UserID`) and the invited user. -/
structure UserInviteRecord where
  UserID : String
  InviteUserID : String
  deriving DecidableEq, Repr

/-- The constructor `persist.NewUserInviteRecord`. -/
def NewUserInviteRecord (userID inviteUserID : String) : UserInviteRecord :=
  { UserID := userID, InviteUserID := inviteUserID }

/-- The methods of `repository.UserRepository` that `handleInvitation` calls. -/
structure UserRepository where
  GetUserByInviteCode : String → Except String (Option User)
  AddCountWhenInviteOther : String → Option String

/-- The methods of `repository.UserInviteRecordRepository` that `handleInvitation` calls. -/
structure UserInviteRecordRepository where
  GetByInviteUserID : String → Except String (Option UserInviteRecord)
  Insert : UserInviteRecord → Option String

/-- The receiver of `handleInvitation`. -/
structure StartCommandHandler where
  userRepository : UserRepository
  userInviteRecordRepository : UserInviteRecordRepository

/-- The helper `utils.StringToInt64` (its error is dropped by the caller) and the
text `tip.InviteSuccessTip`. -/
structure Deps where
  StringToInt64 : String → Int
  InviteSuccessTip : String

/-- What a run has written so far, oldest first: the records passed to `Insert`,
the user ids passed to `AddCountWhenInviteOther`, and the chat id and text of
each `b.SafeSendMsg`. -/
structure Effects where
  inserted : List UserInviteRecord
  counted : List String
  sent : List (Int × String)
  deriving DecidableEq, Repr

/-- The method `StartCommandHandler.handleInvitation`: the returned error and the
effects after the call. -/
def StartCommandHandler.handleInvitation (c : StartCommandHandler) (d : Deps)
    (inviteCode : String) (inviteUserID : String) (fx : Effects) : Option String × Effects :=
  match c.userRepository.GetUserByInviteCode inviteCode with
  | .error err => (some err, fx)
  | .ok none => (some ("no such user by invite code: " ++ inviteCode), fx)
  | .ok (some user) =>
    if user.UserID == inviteUserID then
      (some ("[handleInvitation] user can not invite himself, user id: [" ++ inviteUserID ++ "]"),
        fx)
    else
      match c.userInviteRecordRepository.GetByInviteUserID inviteUserID with
      | .error err => (some err, fx)
      | .ok (some _) => (none, fx)
      | .ok none =>
        let inviteRecord := NewUserInviteRecord user.UserID inviteUserID
        let fx := { fx with inserted := fx.inserted ++ [inviteRecord] }
        match c.userInviteRecordRepository.Insert inviteRecord with
        | some err => (some err, fx)
        | none =>
          let fx := { fx with counted := fx.counted ++ [user.UserID] }
          match c.userRepository.AddCountWhenInviteOther user.UserID with
          | some err => (some err, fx)
          | none =>
            let originUserID := d.StringToInt64 user.UserID
            (none, { fx with sent := fx.sent ++ [(originUserID, d.InviteSuccessTip)] })

/-- A database in which the code "abcdefghij" belongs to user "100" and nobody
has been invited yet; every write succeeds. -/
def exampleHandler : StartCommandHandler :=
  { userRepository :=
      { GetUserByInviteCode := fun code =>
          if code == "abcdefghij" then .ok (some { UserID := "100" }) else .ok none,
        AddCountWhenInviteOther := fun _ => none },
    userInviteRecordRepository :=
      { GetByInviteUserID := fun _ => .ok none,
        Insert := fun _ => none } }

/-- Decimal ids of the two users of the examples, and a success text. -/
def exampleDeps : Deps :=
  { StringToInt64 := fun s => if s == "100" then 100 else if s == "200" then 200 else 0,
    InviteSuccessTip := "invite success" }

/-- Nothing written yet. -/
def noEffects : Effects := { inserted := [], counted := [], sent := [] }

end Handler

namespace Logic

/-! ## Evaluation lemmas -/

/-- The monadic bind of goroutine bodies is `Prog.bind`. -/
theorem Prog.bind_eq {α β : Type} (p : Prog α) (f : α → Prog β) : (p >>= f) = p.bind f := rfl

/-- The monadic unit of goroutine bodies is `Prog.ret`. -/
theorem Prog.pure_eq {α : Type} (a : α) : (pure a : Prog α) = Prog.ret a := rfl

/-- Removing a key from the session keys removes that key and no other. -/
theorem mem_sessionDelete_iff (key u : Int) (s : List Int) :
    u ∈ sessionDelete key s ↔ u ∈ s ∧ u ≠ key := by
  simp [sessionDelete]

/-- The two semantics agree: an operation performed by `Prog.step` does not change
how the body ends when run alone. -/
theorem Prog.run_of_step {α : Type} (e : Env) (p p2 : Prog α) (w w2 : World)
    (h : p.step e w = some (p2, w2)) : p.run e w = p2.run e w2 := by
  cases p with
  | ret a => simp [Prog.step] at h
  | nilDeref => simp [Prog.step] at h
  | load key k =>
    simp only [Prog.step, Option.some.injEq, Prod.mk.injEq] at h
    rw [← h.1, ← h.2]
    rfl
  | store key k =>
    simp only [Prog.step, Option.some.injEq, Prod.mk.injEq] at h
    rw [← h.1, ← h.2]
    rfl
  | delete key k =>
    simp only [Prog.step, Option.some.injEq, Prod.mk.injEq] at h
    rw [← h.1, ← h.2]
    rfl
  | chanSend t k =>
    by_cases hroom : w.chan.length < TaskChannelCap
    · simp only [Prog.step, hroom, if_true, Option.some.injEq, Prod.mk.injEq] at h
      rw [← h.1, ← h.2]
      simp [Prog.run, hroom]
    · simp [Prog.step, hroom] at h
  | botSend c k =>
    simp only [Prog.step, Option.some.injEq, Prod.mk.injEq] at h
    rw [← h.1, ← h.2]
    rfl

/-- Trimming the space character leaves nothing exactly when the text is made of
space characters only. -/
theorem stringsTrim_space_eq_empty_iff (s : String) :
    stringsTrim s " " = "" ↔ ∀ c ∈ s.data, c = ' ' := by
  have hcut : ∀ c : Char, (" ".data.contains c) = true ↔ c = ' ' := by
    intro c
    simp [List.contains]
  unfold stringsTrim
  constructor
  · intro h
    have h1 : (((s.data.dropWhile (fun c => " ".data.contains c)).reverse).dropWhile
        (fun c => " ".data.contains c)).reverse = [] := congrArg String.data h
    rw [List.reverse_eq_nil_iff, List.dropWhile_eq_nil_iff] at h1
    have h2 : s.data.dropWhile (fun c => " ".data.contains c) = [] := by
      cases hd : s.data.dropWhile (fun c => " ".data.contains c) with
      | nil => rfl
      | cons a l =>
        exfalso
        have ha : (" ".data.contains a) = true :=
          h1 a (by rw [hd]; exact List.mem_reverse.2 (List.mem_cons_self a l))
        have hne := List.head_dropWhile_not (fun c => " ".data.contains c) s.data
          (by rw [hd]; exact List.cons_ne_nil a l)
        simp only [hd, List.head_cons] at hne
        rw [ha] at hne
        exact absurd hne (by decide)
    rw [List.dropWhile_eq_nil_iff] at h2
    intro c hc
    exact (hcut c).1 (h2 c hc)
  · intro h
    have h2 : s.data.dropWhile (fun c => " ".data.contains c) = [] := by
      rw [List.dropWhile_eq_nil_iff]
      intro c hc
      exact (hcut c).2 (h c hc)
    rw [h2]
    rfl

/-- A discarded update leaves the state as it is. -/
theorem handleUserMessage_run_of_ignored (e : Env) (id : Int) (m : Message) (w : World)
    (hi : shouldIgnoreMsg { UpdateID := id, Message := some m } = true) :
    (handleUserMessage e { UpdateID := id, Message := some m }).run e w = .done () w := by
  simp [handleUserMessage, hi, Prog.bind_eq, Prog.pure_eq, Prog.bind, Prog.run, sessionLoadOp]

/-- A private message that is kept and gated ends in `sendLimitMessage`. -/
theorem handleUserMessage_run_of_limited (e : Env) (id : Int) (m : Message) (w : World)
    (hi : shouldIgnoreMsg { UpdateID := id, Message := some m } = false)
    (hp : m.Chat.IsPrivate = true)
    (hl : shouldLimitUser e { UpdateID := id, Message := some m } = some true) :
    (handleUserMessage e { UpdateID := id, Message := some m }).run e w =
      (sendLimitMessage e m.Chat.ID m.MessageID).run e w := by
  simp [handleUserMessage, hi, hp, hl, Prog.bind_eq, Prog.pure_eq, Prog.bind, Prog.run,
    sessionLoadOp, Prog.ofOption]

/-- A kept, addressed message that is not gated ends in `sendRateLimitMessage` when
the sender has a session entry and in `sendTaskToChannel` otherwise. -/
theorem handleUserMessage_run_of_passed (e : Env) (id : Int) (m : Message) (w : World)
    (hi : shouldIgnoreMsg { UpdateID := id, Message := some m } = false)
    (ha : m.Chat.IsPrivate = true ∨ ∃ r, m.ReplyToMessage = some r ∧ r.From.ID = e.SelfID)
    (hg : m.Chat.IsPrivate = true →
      shouldLimitUser e { UpdateID := id, Message := some m } = some false) :
    (handleUserMessage e { UpdateID := id, Message := some m }).run e w =
      if m.From.ID ∈ w.session then (sendRateLimitMessage m.Chat.ID).run e w
      else (sendTaskToChannel m.Text m.Chat.ID m.From.ID m.MessageID).run e w := by
  by_cases hp : m.Chat.IsPrivate = true
  · have hl := hg hp
    by_cases hs : m.From.ID ∈ w.session <;>
    simp [handleUserMessage, hi, hp, hl, hs, Prog.bind_eq, Prog.pure_eq, Prog.bind, Prog.run,
      sessionLoadOp, Prog.ofOption]
  · rcases ha with ha | ⟨r, hr, hid⟩
    · exact absurd ha hp
    · by_cases hs : m.From.ID ∈ w.session <;>
      simp [handleUserMessage, hi, hp, hr, hid, hs, Prog.bind_eq, Prog.pure_eq, Prog.bind, Prog.run,
        sessionLoadOp, Prog.ofOption]

/-- A message outside a private chat that does not reply to the bot changes nothing. -/
theorem handleUserMessage_run_of_unaddressed (e : Env) (id : Int) (m : Message) (w : World)
    (hp : m.Chat.IsPrivate = false)
    (hr : ∀ r, m.ReplyToMessage = some r → r.From.ID ≠ e.SelfID) :
    (handleUserMessage e { UpdateID := id, Message := some m }).run e w = .done () w := by
  cases hi : shouldIgnoreMsg { UpdateID := id, Message := some m }
  · cases hrm : m.ReplyToMessage with
    | none =>
      simp [handleUserMessage, hi, hp, hrm, Prog.bind_eq, Prog.pure_eq, Prog.bind, Prog.run,
        sessionLoadOp]
    | some r =>
      have := hr r hrm
      simp [handleUserMessage, hi, hp, hrm, this, Prog.bind_eq, Prog.pure_eq, Prog.bind, Prog.run,
        sessionLoadOp]
  · exact handleUserMessage_run_of_ignored e id m w hi

/-- What `sendLimitMessage` hands to `bot.Send`. -/
theorem sendLimitMessage_run (e : Env) (chatID msgID : Int) (w : World) :
    (sendLimitMessage e chatID msgID).run e w =
      .done () { w with out := w.out ++ [.message
        { ChatID := chatID,
          Text := ("You should join channel " ++ e.tgChannelName ++ " and group " ++
            e.tgGroupName ++ ", then you can talk to me") ++ "\n\n" ++
            ("你需要加入频道 " ++ e.tgChannelName ++ " 和群组 " ++ e.tgGroupName ++
              "，然后才能和我交谈"),
          ReplyToMessageID := msgID, ParseMode := "" }] } := rfl

/-- What `sendRateLimitMessage` hands to `bot.Send`. -/
theorem sendRateLimitMessage_run (e : Env) (chat : Int) (w : World) :
    (sendRateLimitMessage chat).run e w =
      .done () { w with out := w.out ++ [.message
        { ChatID := chat, Text := "you are chatting with me, please wait for a while.",
          ReplyToMessageID := 0, ParseMode := "" }] } := by
  simp [sendRateLimitMessage, botSendOp, Prog.run, NewMessage]

/-- Admission with room on `TaskChannel` runs to its end. -/
theorem sendTaskToChannel_run_of_room (e : Env) (question : String) (chat from_ msgID : Int)
    (w : World) (hroom : w.chan.length < TaskChannelCap) :
    (sendTaskToChannel question chat from_ msgID).run e w =
      .done () { session := sessionStore from_ w.session,
                 chan := w.chan ++ [NewChatTask question chat from_ msgID],
                 out := w.out ++ [.chatAction { ChatID := chat, Action := "typing" }] } := by
  simp [sendTaskToChannel, sessionStoreOp, taskChannelSend, ChatTask.SendTyping, botSendOp,
    Prog.bind_eq, Prog.bind, Prog.run, hroom, NewChatTask, NewChatAction, ChatTyping]

/-- Admission with the slot of `TaskChannel` taken parks on the send. -/
theorem sendTaskToChannel_run_of_full (e : Env) (question : String) (chat from_ msgID : Int)
    (w : World) (hfull : TaskChannelCap ≤ w.chan.length) :
    (sendTaskToChannel question chat from_ msgID).run e w =
      .blocked { w with session := sessionStore from_ w.session }
        (NewChatTask question chat from_ msgID)
        (NewChatTask question chat from_ msgID).SendTyping := by
  have h : ¬ w.chan.length < TaskChannelCap := Nat.not_lt.2 hfull
  simp [sendTaskToChannel, sessionStoreOp, taskChannelSend,
    Prog.bind_eq, Prog.bind, Prog.run, h]

/-- What `SendTyping` hands to `bot.Send`. -/
theorem sendTyping_run (e : Env) (t : ChatTask) (w : World) :
    t.SendTyping.run e w =
      .done () { w with out := w.out ++ [.chatAction { ChatID := t.Chat, Action := "typing" }] } := by
  simp [ChatTask.SendTyping, botSendOp, Prog.run, NewChatAction, ChatTyping]

/-! ## Claims -/

/-- C1 (the code departs from the claim). Two private-chat messages "a" and "b"
of user 7, a member of both chats, are handled by two goroutines that both
perform `session.Load` before either performs `session.Store`: both are passed
to `sendTaskToChannel`, and the process reaches a state in which the task for
"b" is on `TaskChannel` while `Finish` is processing the task for "a": two tasks
with `From = 7` at once. -/
theorem duplicate_admission_under_interleaving :
    (Sys.exec exampleEnv Sys.init raceSchedule).map
        (fun s => (s.world.chan, s.worker.map Prod.fst)) =
      some ([NewChatTask "b" 7 7 12], some (NewChatTask "a" 7 7 11)) ∧
    (Sys.exec exampleEnv Sys.init raceSchedule).map
        (fun s => (s.inFlight.filter (fun t => t.From == 7)).length) = some 2 := by
  decide

/-- C2, counterexample. User 7 has left the group and sends a private message
without text (a sticker, say): the handler returns without sending anything, so
no gating notice reaches the chat. -/
theorem gating_notice_absent_for_discarded_message :
    (privateMsg 21 "").Chat.IsPrivate = true ∧
    findMemberFromChat outsiderEnv outsiderEnv.tgGroupName (privateMsg 21 "").From.ID = false ∧
    (handleUserMessage outsiderEnv { UpdateID := 1, Message := some (privateMsg 21 "") }).run
        outsiderEnv emptyWorld = .done () emptyWorld ∧
    emptyWorld.out = [] :=
  ⟨by decide, by decide, rfl, rfl⟩

/-- C2, amended. For a private-chat message whose sender fails at least one of
the two membership checks, `handleUserMessage` returns with `TaskChannel` and the
session set unchanged; if `shouldIgnoreMsg` discards the update nothing is sent,
otherwise exactly one message is sent to that chat, the bilingual gating notice
naming the configured channel and group, as a reply to the message. -/
theorem handleUserMessage_gated_sends_only_notice (e : Env) (id : Int) (m : Message) (w : World)
    (hp : m.Chat.IsPrivate = true)
    (hl : findMemberFromChat e e.tgChannelName m.From.ID = false ∨
      findMemberFromChat e e.tgGroupName m.From.ID = false) :
    (handleUserMessage e { UpdateID := id, Message := some m }).run e w =
      .done ()
        (if shouldIgnoreMsg { UpdateID := id, Message := some m } then w
         else
          { session := w.session, chan := w.chan,
            out := w.out ++ [.message
              { ChatID := m.Chat.ID,
                Text := ("You should join channel " ++ e.tgChannelName ++ " and group " ++
                  e.tgGroupName ++ ", then you can talk to me") ++ "\n\n" ++
                  ("你需要加入频道 " ++ e.tgChannelName ++ " 和群组 " ++ e.tgGroupName ++
                    "，然后才能和我交谈"),
                ReplyToMessageID := m.MessageID, ParseMode := "" }] }) := by
  cases hi : shouldIgnoreMsg { UpdateID := id, Message := some m }
  · have hlim : shouldLimitUser e { UpdateID := id, Message := some m } = some true := by
      rcases hl with h | h <;> simp [shouldLimitUser, h]
    rw [handleUserMessage_run_of_limited e id m w hi hp hlim, sendLimitMessage_run]
    rfl
  · rw [handleUserMessage_run_of_ignored e id m w hi]
    rfl

/-- C2, witness: user 7, who has left the group, writes "hello" in private. -/
theorem handleUserMessage_gated_sends_only_notice_witness :
    (privateMsg 22 "hello").Chat.IsPrivate = true ∧
    shouldIgnoreMsg { UpdateID := 2, Message := some (privateMsg 22 "hello") } = false ∧
    (handleUserMessage outsiderEnv { UpdateID := 2, Message := some (privateMsg 22 "hello") }).run
        outsiderEnv emptyWorld =
      .done ()
        { session := [], chan := [],
          out := [.message
            { ChatID := 7,
              Text := "You should join channel @news and group @talk, then you can talk to me" ++
                "\n\n" ++ "你需要加入频道 @news 和群组 @talk，然后才能和我交谈",
              ReplyToMessageID := 22, ParseMode := "" }] } :=
  ⟨by decide, by decide,
    (handleUserMessage_gated_sends_only_notice outsiderEnv 2 (privateMsg 22 "hello") emptyWorld
      (by decide) (Or.inr (by decide))).trans rfl⟩

/-- C3, counterexample. A private message whose text is one tab character, from a
member of both chats without a session entry, is admitted: a session entry is
created and a task is put on `TaskChannel`. -/
theorem tab_only_text_is_enqueued :
    (∀ c ∈ "\t".data, c.isWhitespace = true) ∧
    (handleUserMessage exampleEnv { UpdateID := 3, Message := some (privateMsg 31 "\t") }).run
        exampleEnv emptyWorld =
      .done ()
        { session := [7], chan := [NewChatTask "\t" 7 7 31],
          out := [.chatAction { ChatID := 7, Action := "typing" }] } :=
  ⟨by decide, rfl⟩

/-- C3, amended. For every update whose message text is empty or consists only of
space characters (U+0020), `handleUserMessage` returns with the whole state
unchanged: no task is enqueued, no session entry is created and nothing is sent,
whatever the chat type, the reply target, the membership results and the session
state. -/
theorem handleUserMessage_discards_blank_text (e : Env) (id : Int) (m : Message) (w : World)
    (hblank : ∀ c ∈ m.Text.data, c = ' ') :
    (handleUserMessage e { UpdateID := id, Message := some m }).run e w = .done () w := by
  apply handleUserMessage_run_of_ignored
  have ht : stringsTrim m.Text " " = "" := (stringsTrim_space_eq_empty_iff m.Text).2 hblank
  simp [shouldIgnoreMsg, ht]

/-- C3, witness: a private message of three spaces from a member is dropped. -/
theorem handleUserMessage_discards_blank_text_witness :
    (∀ c ∈ "   ".data, c = ' ') ∧
    (handleUserMessage exampleEnv { UpdateID := 4, Message := some (privateMsg 32 "   ") }).run
        exampleEnv emptyWorld = .done () emptyWorld :=
  ⟨by decide,
    handleUserMessage_discards_blank_text exampleEnv 4 (privateMsg 32 "   ") emptyWorld
      (by decide)⟩

/-- C4. For every update that is addressed to the bot (private chat, or a reply to
a message of the bot), is not discarded by `shouldIgnoreMsg`, and passes gating
when the chat is private, if the session set holds an entry for the sender then
`handleUserMessage` sends exactly one message to the chat, the "please wait"
notice, enqueues nothing and leaves the session set unchanged. -/
theorem handleUserMessage_busy_sender_gets_wait_notice (e : Env) (id : Int) (m : Message)
    (w : World)
    (hi : shouldIgnoreMsg { UpdateID := id, Message := some m } = false)
    (ha : m.Chat.IsPrivate = true ∨ ∃ r, m.ReplyToMessage = some r ∧ r.From.ID = e.SelfID)
    (hg : m.Chat.IsPrivate = true →
      findMemberFromChat e e.tgChannelName m.From.ID = true ∧
      findMemberFromChat e e.tgGroupName m.From.ID = true)
    (hs : m.From.ID ∈ w.session) :
    (handleUserMessage e { UpdateID := id, Message := some m }).run e w =
      .done ()
        { session := w.session, chan := w.chan,
          out := w.out ++ [.message
            { ChatID := m.Chat.ID, Text := "you are chatting with me, please wait for a while.",
              ReplyToMessageID := 0, ParseMode := "" }] } := by
  have hg2 : m.Chat.IsPrivate = true →
      shouldLimitUser e { UpdateID := id, Message := some m } = some false := by
    intro hp
    simp [shouldLimitUser, (hg hp).1, (hg hp).2]
  rw [handleUserMessage_run_of_passed e id m w hi ha hg2, if_pos hs, sendRateLimitMessage_run]

/-- C4, witness: user 7 replies "more" to a message of the bot in a group while a
task of theirs is outstanding. -/
theorem handleUserMessage_busy_sender_gets_wait_notice_witness :
    shouldIgnoreMsg
      { UpdateID := 5, Message := some (groupReply 41 "more" { ID := 1, IsBot := true }) } = false ∧
    (7 : Int) ∈ ({ session := [7], chan := [], out := [] } : World).session ∧
    (handleUserMessage exampleEnv
        { UpdateID := 5, Message := some (groupReply 41 "more" { ID := 1, IsBot := true }) }).run
        exampleEnv { session := [7], chan := [], out := [] } =
      .done ()
        { session := [7], chan := [],
          out := [.message
            { ChatID := -100, Text := "you are chatting with me, please wait for a while.",
              ReplyToMessageID := 0, ParseMode := "" }] } :=
  ⟨by decide, by decide,
    handleUserMessage_busy_sender_gets_wait_notice exampleEnv 5
      (groupReply 41 "more" { ID := 1, IsBot := true }) { session := [7], chan := [], out := [] }
      (by decide) (Or.inr ⟨{ From := { ID := 1, IsBot := true } }, rfl, rfl⟩)
      (fun h => absurd h (by decide)) (by decide)⟩

/-- C5. `findMemberFromChat` is fail-closed: it returns false exactly when the
membership query for that chat name and user returns an error or a status equal
to "left" or "kicked", and true for every other successful status. -/
theorem findMemberFromChat_fail_closed (e : Env) (chatName : String) (userID : Int) :
    (findMemberFromChat e chatName userID = false ↔
      (∃ err, e.GetChatMember { SuperGroupUsername := chatName, UserID := userID } = .error err) ∨
      (∃ member, e.GetChatMember { SuperGroupUsername := chatName, UserID := userID } = .ok member ∧
        (member.Status = "left" ∨ member.Status = "kicked"))) ∧
    (findMemberFromChat e chatName userID = true ↔
      ∃ member, e.GetChatMember { SuperGroupUsername := chatName, UserID := userID } = .ok member ∧
        member.Status ≠ "left" ∧ member.Status ≠ "kicked") := by
  cases h : e.GetChatMember { SuperGroupUsername := chatName, UserID := userID } with
  | error err => simp [findMemberFromChat, h]
  | ok member =>
    by_cases h1 : member.Status = "left" <;> by_cases h2 : member.Status = "kicked" <;>
      simp [findMemberFromChat, h, h1, h2]

/-- C6. `shouldLimitUser` returns false exactly when the update carries a
message whose sender `findMemberFromChat` finds in both the configured channel
and the configured group; it returns true as soon as one of the two fails. -/
theorem shouldLimitUser_false_iff_member_of_both (e : Env) (update : Update) :
    (shouldLimitUser e update = some false ↔
      ∃ m, update.Message = some m ∧
        findMemberFromChat e e.tgChannelName m.From.ID = true ∧
        findMemberFromChat e e.tgGroupName m.From.ID = true) ∧
    (shouldLimitUser e update = some true ↔
      ∃ m, update.Message = some m ∧
        (findMemberFromChat e e.tgChannelName m.From.ID = false ∨
         findMemberFromChat e e.tgGroupName m.From.ID = false)) := by
  cases h : update.Message with
  | none => simp [shouldLimitUser, h]
  | some m =>
    cases h1 : findMemberFromChat e e.tgChannelName m.From.ID <;>
    cases h2 : findMemberFromChat e e.tgGroupName m.From.ID <;> simp [shouldLimitUser, h, h1, h2]


/-- C7, counterexample. User 7, member of both chats and without a session entry,
writes "hi" in private while a task of user 8 occupies the slot of
`TaskChannel`: the handler adds the session entry and parks on the channel send;
no task of user 7 is on the channel and no "typing" action has been sent. -/
theorem admission_parks_on_full_channel :
    shouldIgnoreMsg { UpdateID := 9, Message := some (privateMsg 52 "hi") } = false ∧
    (privateMsg 52 "hi").Chat.IsPrivate = true ∧
    findMemberFromChat exampleEnv exampleEnv.tgChannelName 7 = true ∧
    findMemberFromChat exampleEnv exampleEnv.tgGroupName 7 = true ∧
    (7 : Int) ∉ fullWorld.session ∧
    ((handleUserMessage exampleEnv { UpdateID := 9, Message := some (privateMsg 52 "hi") }).run
        exampleEnv fullWorld).isBlocked = true ∧
    ((handleUserMessage exampleEnv { UpdateID := 9, Message := some (privateMsg 52 "hi") }).run
        exampleEnv fullWorld).world =
      { session := [7, 8], chan := [NewChatTask "earlier" 8 8 3], out := [] } := by
  decide

/-- C7, amended. Admission. For every update that is addressed to the bot (private
chat, or a reply to a message of the bot), is not discarded, whose sender has no
session entry and, when the chat is private, is a member of both channel and
group (in a non-private chat the membership results play no part),
`handleUserMessage` adds a session entry for the sender. If `TaskChannel` has
room it then enqueues exactly one task with the message text as question, the
chat id, the sender id, the message id and an empty answer, sends one "typing"
action to that chat and returns. If the slot of `TaskChannel` is taken it parks
on the send of that task with nothing enqueued and nothing sent; the parked
send, performed in a state with room, enqueues that task and is followed by the
one "typing" action. -/
theorem handleUserMessage_admits (e : Env) (id : Int) (m : Message) (w : World)
    (hi : shouldIgnoreMsg { UpdateID := id, Message := some m } = false)
    (ha : m.Chat.IsPrivate = true ∨ ∃ r, m.ReplyToMessage = some r ∧ r.From.ID = e.SelfID)
    (hg : m.Chat.IsPrivate = true →
      findMemberFromChat e e.tgChannelName m.From.ID = true ∧
      findMemberFromChat e e.tgGroupName m.From.ID = true)
    (hs : m.From.ID ∉ w.session) :
    (handleUserMessage e { UpdateID := id, Message := some m }).run e w =
      (if w.chan.length < TaskChannelCap then
        .done ()
          { session := m.From.ID :: w.session,
            chan := w.chan ++ [{ Question := m.Text, Answer := "", Chat := m.Chat.ID,
                                 From := m.From.ID, MessageID := m.MessageID }],
            out := w.out ++ [.chatAction { ChatID := m.Chat.ID, Action := "typing" }] }
      else
        .blocked { session := m.From.ID :: w.session, chan := w.chan, out := w.out }
          { Question := m.Text, Answer := "", Chat := m.Chat.ID,
            From := m.From.ID, MessageID := m.MessageID }
          (ChatTask.SendTyping { Question := m.Text, Answer := "", Chat := m.Chat.ID,
                                 From := m.From.ID, MessageID := m.MessageID })) ∧
    ∀ w2 : World, w2.chan.length < TaskChannelCap →
      (Prog.chanSend { Question := m.Text, Answer := "", Chat := m.Chat.ID,
                       From := m.From.ID, MessageID := m.MessageID }
        (ChatTask.SendTyping { Question := m.Text, Answer := "", Chat := m.Chat.ID,
                               From := m.From.ID, MessageID := m.MessageID })).run e w2 =
        .done ()
          { session := w2.session,
            chan := w2.chan ++ [{ Question := m.Text, Answer := "", Chat := m.Chat.ID,
                                  From := m.From.ID, MessageID := m.MessageID }],
            out := w2.out ++ [.chatAction { ChatID := m.Chat.ID, Action := "typing" }] } := by
  have hg2 : m.Chat.IsPrivate = true →
      shouldLimitUser e { UpdateID := id, Message := some m } = some false := by
    intro hp
    simp [shouldLimitUser, (hg hp).1, (hg hp).2]
  have hst : sessionStore m.From.ID w.session = m.From.ID :: w.session := by
    simp [sessionStore, hs]
  refine ⟨?_, ?_⟩
  · rw [handleUserMessage_run_of_passed e id m w hi ha hg2, if_neg hs]
    by_cases hroom : w.chan.length < TaskChannelCap
    · rw [if_pos hroom, sendTaskToChannel_run_of_room e _ _ _ _ w hroom, hst]
      rfl
    · rw [if_neg hroom, sendTaskToChannel_run_of_full e _ _ _ _ w (Nat.not_lt.1 hroom), hst]
      rfl
  · intro w2 hroom
    simp [Prog.run, hroom, sendTyping_run, NewChatAction, ChatTyping]

/-- C7, witness: user 7, member of both chats and without a session entry, writes
"hi" in private while `TaskChannel` is empty. -/
theorem handleUserMessage_admits_witness :
    shouldIgnoreMsg { UpdateID := 6, Message := some (privateMsg 51 "hi") } = false ∧
    (privateMsg 51 "hi").Chat.IsPrivate = true ∧
    findMemberFromChat exampleEnv exampleEnv.tgChannelName 7 = true ∧
    findMemberFromChat exampleEnv exampleEnv.tgGroupName 7 = true ∧
    (7 : Int) ∉ emptyWorld.session ∧
    (handleUserMessage exampleEnv { UpdateID := 6, Message := some (privateMsg 51 "hi") }).run
        exampleEnv emptyWorld =
      .done ()
        { session := [7],
          chan := [{ Question := "hi", Answer := "", Chat := 7, From := 7, MessageID := 51 }],
          out := [.chatAction { ChatID := 7, Action := "typing" }] } :=
  ⟨by decide, by decide, by decide, by decide, by decide,
    (handleUserMessage_admits exampleEnv 6 (privateMsg 51 "hi") emptyWorld (by decide)
      (Or.inl (by decide)) (fun _ => ⟨by decide, by decide⟩) (by decide)).1.trans rfl⟩

/-- C8. For every task `t` and every state, `Finish` returns; it sets the answer of
`t` to the completion service's result for the question of `t`, hands exactly one
message to `bot.Send`, addressed to the chat of `t`, with that answer as text and
the message id of `t` as reply target, leaves `TaskChannel` alone, and on return
the session set has no entry for the sender of `t`, whatever `bot.Send` returned,
while the entries of all other users are as before. -/
theorem finish_answers_and_releases (e : Env) (t : ChatTask) (w : World) :
    ∃ w2 : World,
      (t.Finish e).run e w =
        .done { Question := t.Question, Answer := e.GetChatGPTResponseWithRetry t.Question,
                Chat := t.Chat, From := t.From, MessageID := t.MessageID } w2 ∧
      w2.out = w.out ++ [.message
        { ChatID := t.Chat, Text := e.GetChatGPTResponseWithRetry t.Question,
          ReplyToMessageID := t.MessageID, ParseMode := "markdown" }] ∧
      w2.chan = w.chan ∧
      t.From ∉ w2.session ∧
      ∀ u : Int, u ≠ t.From → (u ∈ w2.session ↔ u ∈ w.session) := by
  refine ⟨{ session := sessionDelete t.From w.session, chan := w.chan,
            out := w.out ++ [.message
              { ChatID := t.Chat, Text := e.GetChatGPTResponseWithRetry t.Question,
                ReplyToMessageID := t.MessageID, ParseMode := "markdown" }] }, rfl, rfl, rfl, ?_, ?_⟩
  · simp [mem_sessionDelete_iff]
  · intro u hu
    simp [mem_sessionDelete_iff, hu]

/-- C9 (the code departs from the claim). In the private chat of user 7, a reply
"hi" to a message whose author is another bot account (id 99, not the bot's own
id 1) is not discarded: `shouldIgnoreMsg`, which tests the author's `IsBot` flag
and not the author's id, returns false; the sender, a member of both chats, is
admitted, a task is enqueued and a "typing" action is sent. -/
theorem private_reply_to_other_bot_is_admitted :
    (99 : Int) ≠ exampleEnv.SelfID ∧
    shouldIgnoreMsg
      { UpdateID := 7, Message := some (privateReply 61 "hi" { ID := 99, IsBot := true }) } =
      false ∧
    (handleUserMessage exampleEnv
        { UpdateID := 7, Message := some (privateReply 61 "hi" { ID := 99, IsBot := true }) }).run
        exampleEnv emptyWorld =
      .done ()
        { session := [7], chan := [NewChatTask "hi" 7 7 61],
          out := [.chatAction { ChatID := 7, Action := "typing" }] } :=
  ⟨by decide, by decide, rfl⟩

/-- Where the discard of replies to others does hold: a reply to a message whose
author id differs from the bot's own id leaves the whole state unchanged
whenever that author is not flagged as a bot account, in private chats as well
as in groups, and also whenever the chat is not private. -/
theorem handleUserMessage_discards_reply_to_other (e : Env) (id : Int) (m : Message)
    (r : RepliedMessage) (w : World)
    (hr : m.ReplyToMessage = some r)
    (hid : r.From.ID ≠ e.SelfID)
    (hcase : r.From.IsBot = false ∨ m.Chat.IsPrivate = false) :
    (handleUserMessage e { UpdateID := id, Message := some m }).run e w = .done () w := by
  rcases hcase with hbot | hp
  · apply handleUserMessage_run_of_ignored
    simp [shouldIgnoreMsg, hr, hbot]
  · apply handleUserMessage_run_of_unaddressed e id m w hp
    intro r2 hr2
    rw [hr] at hr2
    cases hr2
    exact hid

/-- An instance: in a private chat, user 7 replies to one of their own messages. -/
theorem handleUserMessage_discards_reply_to_other_witness :
    (7 : Int) ≠ exampleEnv.SelfID ∧
    (handleUserMessage exampleEnv
        { UpdateID := 8, Message := some (privateReply 62 "and?" { ID := 7, IsBot := false }) }).run
        exampleEnv emptyWorld = .done () emptyWorld :=
  ⟨by decide,
    handleUserMessage_discards_reply_to_other exampleEnv 8
      (privateReply 62 "and?" { ID := 7, IsBot := false }) { From := { ID := 7, IsBot := false } }
      emptyWorld rfl (by decide) (Or.inl rfl)⟩

/-- C10, counterexample. With the slot of `TaskChannel` taken by a task of user 8,
`sendTaskToChannel` for user 7 parks on the channel send having stored the
session entry; nothing has been handed to `bot.Send`, so no "typing" action has
reached the chat. -/
theorem blocked_handler_has_not_sent_typing :
    fullWorld.chan.length = TaskChannelCap ∧
    ((sendTaskToChannel "q" 7 7 71).run exampleEnv fullWorld).isBlocked = true ∧
    ((sendTaskToChannel "q" 7 7 71).run exampleEnv fullWorld).world =
      { session := [7, 8], chan := [NewChatTask "earlier" 8 8 3], out := [] } := by
  decide

/-- C10, amended. `sendTaskToChannel` stores the session entry, then performs the
send of the task on `TaskChannel`, and emits the "typing" chat action only after
that send has completed: run alone it ends with the task enqueued and the action
sent when the channel has room, and otherwise parks on the send with nothing
sent and only `SendTyping` left to do; operation by operation, after two
operations the task is on the channel and nothing has been sent, and the third
operation hands the "typing" action to `bot.Send`. -/
theorem sendTaskToChannel_typing_after_enqueue (e : Env) (question : String)
    (chat from_ msgID : Int) (w : World) :
    (sendTaskToChannel question chat from_ msgID).run e w =
      (if w.chan.length < TaskChannelCap then
        .done ()
          { session := sessionStore from_ w.session,
            chan := w.chan ++ [NewChatTask question chat from_ msgID],
            out := w.out ++ [.chatAction { ChatID := chat, Action := "typing" }] }
      else
        .blocked { session := sessionStore from_ w.session, chan := w.chan, out := w.out }
          (NewChatTask question chat from_ msgID)
          (NewChatTask question chat from_ msgID).SendTyping) ∧
    (Prog.stepN e 2 (sendTaskToChannel question chat from_ msgID, w)).2 =
      (if w.chan.length < TaskChannelCap then
        { session := sessionStore from_ w.session,
          chan := w.chan ++ [NewChatTask question chat from_ msgID],
          out := w.out }
      else { session := sessionStore from_ w.session, chan := w.chan, out := w.out }) ∧
    (Prog.stepN e 3 (sendTaskToChannel question chat from_ msgID, w)).2 =
      (if w.chan.length < TaskChannelCap then
        { session := sessionStore from_ w.session,
          chan := w.chan ++ [NewChatTask question chat from_ msgID],
          out := w.out ++ [.chatAction { ChatID := chat, Action := "typing" }] }
      else { session := sessionStore from_ w.session, chan := w.chan, out := w.out }) := by
  by_cases hroom : w.chan.length < TaskChannelCap
  · refine ⟨?_, ?_, ?_⟩
    · rw [if_pos hroom, sendTaskToChannel_run_of_room e _ _ _ _ w hroom]
    · simp [Prog.stepN, Prog.step, sendTaskToChannel, sessionStoreOp, taskChannelSend,
        Prog.bind_eq, Prog.bind, hroom]
    · simp [Prog.stepN, Prog.step, sendTaskToChannel, sessionStoreOp, taskChannelSend,
        ChatTask.SendTyping, botSendOp, Prog.bind_eq, Prog.bind, hroom, NewChatTask,
        NewChatAction, ChatTyping]
  · refine ⟨?_, ?_, ?_⟩
    · rw [if_neg hroom, sendTaskToChannel_run_of_full e _ _ _ _ w (Nat.not_lt.1 hroom)]
    · simp [Prog.stepN, Prog.step, sendTaskToChannel, sessionStoreOp, taskChannelSend,
        Prog.bind_eq, Prog.bind, hroom]
    · simp [Prog.stepN, Prog.step, sendTaskToChannel, sessionStoreOp, taskChannelSend,
        Prog.bind_eq, Prog.bind, hroom]

end Logic

namespace Handler

/-- C11. `handleInvitation` passes a record to `Insert` or a user id to
`AddCountWhenInviteOther` only when the invite code belongs to an existing user
whose id differs from the invited user's id and the invited user has no earlier
invite record. In every other case (an error of either lookup, unknown code,
self-invitation, already invited) it leaves the effects as they were: no record
inserted, no count added, nothing sent. In that one case it passes the record of
inviter and invited user to `Insert`, and credits the inviter exactly when
`Insert` returned no error. For an unknown code and for a self-invitation it
returns an error, and it returns the error of a failed lookup of the code. -/
theorem handleInvitation_writes_only_for_fresh_invitee (c : StartCommandHandler) (d : Deps)
    (inviteCode inviteUserID : String) (fx : Effects) :
    (((c.handleInvitation d inviteCode inviteUserID fx).2.inserted ≠ fx.inserted ∨
      (c.handleInvitation d inviteCode inviteUserID fx).2.counted ≠ fx.counted) →
      ∃ user, c.userRepository.GetUserByInviteCode inviteCode = .ok (some user) ∧
        user.UserID ≠ inviteUserID ∧
        c.userInviteRecordRepository.GetByInviteUserID inviteUserID = .ok none) ∧
    ((¬ ∃ user, c.userRepository.GetUserByInviteCode inviteCode = .ok (some user) ∧
        user.UserID ≠ inviteUserID ∧
        c.userInviteRecordRepository.GetByInviteUserID inviteUserID = .ok none) →
      (c.handleInvitation d inviteCode inviteUserID fx).2 = fx) ∧
    (∀ user, c.userRepository.GetUserByInviteCode inviteCode = .ok (some user) →
      user.UserID ≠ inviteUserID →
      c.userInviteRecordRepository.GetByInviteUserID inviteUserID = .ok none →
      (c.handleInvitation d inviteCode inviteUserID fx).2.inserted =
        fx.inserted ++ [{ UserID := user.UserID, InviteUserID := inviteUserID }] ∧
      (c.handleInvitation d inviteCode inviteUserID fx).2.counted =
        if c.userInviteRecordRepository.Insert
            { UserID := user.UserID, InviteUserID := inviteUserID } = none
        then fx.counted ++ [user.UserID] else fx.counted) ∧
    (c.userRepository.GetUserByInviteCode inviteCode = .ok none →
      (c.handleInvitation d inviteCode inviteUserID fx).1 =
        some ("no such user by invite code: " ++ inviteCode)) ∧
    (∀ user, c.userRepository.GetUserByInviteCode inviteCode = .ok (some user) →
      user.UserID = inviteUserID →
      (c.handleInvitation d inviteCode inviteUserID fx).1 =
        some ("[handleInvitation] user can not invite himself, user id: [" ++ inviteUserID ++
          "]")) ∧
    (∀ err, c.userRepository.GetUserByInviteCode inviteCode = .error err →
      (c.handleInvitation d inviteCode inviteUserID fx).1 = some err) := by
  have hquiet : (¬ ∃ user, c.userRepository.GetUserByInviteCode inviteCode = .ok (some user) ∧
        user.UserID ≠ inviteUserID ∧
        c.userInviteRecordRepository.GetByInviteUserID inviteUserID = .ok none) →
      (c.handleInvitation d inviteCode inviteUserID fx).2 = fx := by
    intro hno
    unfold StartCommandHandler.handleInvitation
    cases h1 : c.userRepository.GetUserByInviteCode inviteCode with
    | error err => rfl
    | ok ou =>
      cases ou with
      | none => rfl
      | some user =>
        by_cases hself : user.UserID = inviteUserID
        · simp [hself]
        · cases h2 : c.userInviteRecordRepository.GetByInviteUserID inviteUserID with
          | error err => simp [hself]
          | ok orec =>
            cases orec with
            | some record => simp [hself]
            | none => exact absurd ⟨user, h1, hself, h2⟩ hno
  refine ⟨?_, hquiet, ?_, ?_, ?_, ?_⟩
  · intro hchg
    by_contra hno
    rw [hquiet hno] at hchg
    rcases hchg with h | h <;> exact h rfl
  · intro user h1 hself h2
    unfold StartCommandHandler.handleInvitation
    simp only [h1, h2]
    cases h3 : c.userInviteRecordRepository.Insert
        { UserID := user.UserID, InviteUserID := inviteUserID } with
    | some err => simp [hself, NewUserInviteRecord, h3]
    | none =>
      cases h4 : c.userRepository.AddCountWhenInviteOther user.UserID <;>
        simp [hself, NewUserInviteRecord, h3, h4]
  · intro h1
    unfold StartCommandHandler.handleInvitation
    simp [h1]
  · intro user h1 hself
    unfold StartCommandHandler.handleInvitation
    simp [h1, hself]
  · intro err h1
    unfold StartCommandHandler.handleInvitation
    simp [h1]

/-- C11, witness: user "200" follows the invite link of user "100" for the first
time: the record is inserted and user "100" is credited. -/
theorem handleInvitation_writes_only_for_fresh_invitee_witness :
    exampleHandler.userRepository.GetUserByInviteCode "abcdefghij" =
      .ok (some { UserID := "100" }) ∧
    ("100" : String) ≠ "200" ∧
    exampleHandler.userInviteRecordRepository.GetByInviteUserID "200" = .ok none ∧
    (exampleHandler.handleInvitation exampleDeps "abcdefghij" "200" noEffects).2.inserted =
      [{ UserID := "100", InviteUserID := "200" }] ∧
    (exampleHandler.handleInvitation exampleDeps "abcdefghij" "200" noEffects).2.counted =
      ["100"] :=
  ⟨rfl, by decide, rfl,
    ((handleInvitation_writes_only_for_fresh_invitee exampleHandler exampleDeps "abcdefghij" "200"
      noEffects).2.2.1 { UserID := "100" } rfl (by decide) rfl).1.trans rfl,
    ((handleInvitation_writes_only_for_fresh_invitee exampleHandler exampleDeps "abcdefghij" "200"
      noEffects).2.2.1 { UserID := "100" } rfl (by decide) rfl).2.trans rfl⟩

end Handler
